import Mathlib

set_option maxRecDepth 10000

/-!
Verification development for the DVC credit-card pipeline repository.

The three source files are embedded shallowly:
  generate_data.py : generate_credit_card_data and the CLI version mapping,
  preprocess.py    : preprocess (drop id, median imputation, derived ratios,
                     99th-percentile clipping),
  train.py         : the metrics record written by train.

Tables are embedded column-wise; a numeric column is a List of rationals and
a column that may hold NaN cells is a List of Option rationals (none = NaN).
Floating point is idealized as exact rational arithmetic.
-/

namespace CC

/-- Raw table: the schema produced by generate_credit_card_data in
generate_data.py.  CUST_ID is optional because preprocess drops it with
errors equal to ignore, so an input without it is legal for preprocess.
Only CREDIT_LIMIT and MINIMUM_PAYMENTS can hold missing cells, which is
exactly the shape the generator emits. -/
structure RawTable where
  cust_id : Option (List String)
  balance : List ℚ
  balance_frequency : List ℚ
  purchases : List ℚ
  oneoff_purchases : List ℚ
  installments_purchases : List ℚ
  cash_advance : List ℚ
  purchases_frequency : List ℚ
  oneoff_purchases_frequency : List ℚ
  purchases_installments_frequency : List ℚ
  cash_advance_frequency : List ℚ
  cash_advance_trx : List ℚ
  purchases_trx : List ℚ
  credit_limit : List (Option ℚ)
  payments : List ℚ
  minimum_payments : List (Option ℚ)
  prc_full_payment : List ℚ
  tenure : List ℚ

/-- Deterministic stand-in for the numpy pseudorandom stream: after
np.random.seed(seed) every draw in generate_credit_card_data is a pure
function of the seed, which is all the claims about the generator use.
The argument col tags which column (or which choice call) is drawing and
i is the row index. -/
def rnd (seed col i : Nat) : Nat :=
  (seed * 1000003 + col * 10007 + i * 101 + 12345) % 2147483647

/-- The fixed credit-limit tiers of np.random.choice in generate_data.py. -/
def credit_limit_tiers : List ℚ :=
  [500, 1000, 1500, 2000, 3000, 5000, 7500, 10000, 15000, 20000]

/-- One drawn column of n rows (stand-in for one np.random call). -/
def drawCol (seed col n : Nat) : List ℚ :=
  (List.range n).map (fun i => ((rnd seed col i : ℚ) / 1000))

/-- Stand-in for str(i).zfill(4). -/
def zfill (w : Nat) (s : String) : String :=
  String.mk (List.replicate (w - s.length) '0') ++ s

/-- The random material generate_credit_card_data consumes: the seventeen
drawn numeric columns (pre NaN injection, hence plain rationals) and the
two index draws of np.random.choice with replace equal to False used to
place the NaN cells. -/
structure GenDraws where
  balance : List ℚ
  balance_frequency : List ℚ
  purchases : List ℚ
  oneoff_purchases : List ℚ
  installments_purchases : List ℚ
  cash_advance : List ℚ
  purchases_frequency : List ℚ
  oneoff_purchases_frequency : List ℚ
  purchases_installments_frequency : List ℚ
  cash_advance_frequency : List ℚ
  cash_advance_trx : List ℚ
  purchases_trx : List ℚ
  credit_limit : List ℚ
  payments : List ℚ
  minimum_payments : List ℚ
  prc_full_payment : List ℚ
  tenure : List ℚ
  nanIdxCredit : List Nat
  nanIdxMin : List Nat

/-- Overwrite with none every cell whose absolute row index (starting at k)
is in idxs: the embedding of df.loc of a list of indices being set to
np.nan. -/
def setNoneAux (idxs : List Nat) : Nat → List (Option ℚ) → List (Option ℚ)
  | _, [] => []
  | k, x :: xs => (if k ∈ idxs then none else x) :: setNoneAux idxs (k + 1) xs

/-- Core of generate_credit_card_data: build the DataFrame from the drawn
columns, then inject the NaN cells at the drawn index lists (one cell in
CREDIT_LIMIT, the drawn list of cells in MINIMUM_PAYMENTS). -/
def generateFromDraws (n : Nat) (d : GenDraws) : RawTable where
  cust_id := some ((List.range n).map (fun i => "C1" ++ zfill 4 (toString (i + 1))))
  balance := d.balance
  balance_frequency := d.balance_frequency
  purchases := d.purchases
  oneoff_purchases := d.oneoff_purchases
  installments_purchases := d.installments_purchases
  cash_advance := d.cash_advance
  purchases_frequency := d.purchases_frequency
  oneoff_purchases_frequency := d.oneoff_purchases_frequency
  purchases_installments_frequency := d.purchases_installments_frequency
  cash_advance_frequency := d.cash_advance_frequency
  cash_advance_trx := d.cash_advance_trx
  purchases_trx := d.purchases_trx
  credit_limit := setNoneAux d.nanIdxCredit 0 (d.credit_limit.map some)
  payments := d.payments
  minimum_payments := setNoneAux d.nanIdxMin 0 (d.minimum_payments.map some)
  prc_full_payment := d.prc_full_payment
  tenure := d.tenure

/-- Stand-in for np.random.choice(df.index, size, replace equal to False):
size indices taken from a rotation of the index range (k is random
material).  For size at most n this yields size distinct in-range
indices, the guarantee numpy documents for sampling without
replacement. -/
def chooseNoReplace (n size k : Nat) : List Nat :=
  (List.range size).map (fun i => (i + k) % n)

/-- All the draws of generate_credit_card_data for a given seed, in the
order the source makes them: seventeen value columns, then the two NaN
index choices. -/
def seedDraws (n seed : Nat) : GenDraws where
  balance := drawCol seed 0 n
  balance_frequency := drawCol seed 1 n
  purchases := drawCol seed 2 n
  oneoff_purchases := drawCol seed 3 n
  installments_purchases := drawCol seed 4 n
  cash_advance := drawCol seed 5 n
  purchases_frequency := drawCol seed 6 n
  oneoff_purchases_frequency := drawCol seed 7 n
  purchases_installments_frequency := drawCol seed 8 n
  cash_advance_frequency := drawCol seed 9 n
  cash_advance_trx := (List.range n).map (fun i => ((rnd seed 10 i % 20 : Nat) : ℚ))
  purchases_trx := (List.range n).map (fun i => ((rnd seed 11 i % 100 : Nat) : ℚ))
  credit_limit := (List.range n).map (fun i => credit_limit_tiers.getD (rnd seed 12 i % 10) 0)
  payments := drawCol seed 13 n
  minimum_payments := drawCol seed 14 n
  prc_full_payment := drawCol seed 15 n
  tenure := (List.range n).map (fun i => ((6 + rnd seed 16 i % 7 : Nat) : ℚ))
  nanIdxCredit := chooseNoReplace n 1 (rnd seed 17 0)
  nanIdxMin := chooseNoReplace n 313 (rnd seed 18 0)

/-- generate_credit_card_data(n_samples, seed) from generate_data.py:
seed the stream, draw every column, inject the NaN cells. -/
def generate_credit_card_data (n_samples seed : Nat) : RawTable :=
  generateFromDraws n_samples (seedDraws n_samples seed)

/-- Insert into a sorted list of rationals (helper for sorting). -/
def insertSorted (x : ℚ) : List ℚ → List ℚ
  | [] => [x]
  | y :: ys => if x ≤ y then x :: y :: ys else y :: insertSorted x ys

/-- Sort a list of rationals ascending (insertion sort). -/
def sortQ (xs : List ℚ) : List ℚ :=
  xs.foldr insertSorted []

/-- Median as pandas Series.median computes it on non-missing data: the
middle of the sorted values, averaging the two middle values when the
count is even. -/
def median (xs : List ℚ) : ℚ :=
  let s := sortQ xs
  let m := s.length
  if m % 2 = 1 then s.getD (m / 2) 0
  else (s.getD (m / 2 - 1) 0 + s.getD (m / 2) 0) / 2

/-- Series.median of a column with missing cells: pandas skips NaN; over
an entirely missing column the median is itself NaN (none). -/
def medianOpt (xs : List (Option ℚ)) : Option ℚ :=
  let vs := xs.filterMap id
  if vs = [] then none else some (median vs)

/-- Series.fillna(v): missing cells become v; when v is itself NaN
(median of an all-missing column) the cell stays missing. -/
def fillna (xs : List (Option ℚ)) (v : Option ℚ) : List (Option ℚ) :=
  xs.map (fun x => match x with | none => v | some a => some a)

/-- Series.quantile(0.99) with the default linear interpolation: position
h equal to (m - 1) * 0.99 in the sorted values, interpolating between the
two neighbouring order statistics. -/
def quantile99 (xs : List ℚ) : ℚ :=
  let s := sortQ xs
  let m := s.length
  if m = 0 then 0
  else
    let h : ℚ := ((m : ℚ) - 1) * (99 / 100)
    let i : Nat := (⌊h⌋ : ℤ).toNat
    let f : ℚ := h - (i : ℚ)
    if i + 1 < m then s.getD i 0 + f * (s.getD (i + 1) 0 - s.getD i 0)
    else s.getD i 0

/-- Pandas elementwise float division on non-missing operands, keeping
its missing-value semantics: 0 / 0 is NaN (none), which pandas counts as
missing; a nonzero numerator over zero gives an infinity, which pandas
does not count as missing and which this rational embedding carries as
the placeholder value of total division.  No claim inspects the value of
that cell, only its non-missingness. -/
def divPd (a b : ℚ) : Option ℚ :=
  if b = 0 ∧ a = 0 then none else some (a / b)

/-- Series.clip(upper equal to u): one-sided upper clip. -/
def clipUpper (u x : ℚ) : ℚ := min x u

/-- The clipping loop body of preprocess for a fully numeric column:
upper is the column's own 99th percentile. -/
def clipCol (xs : List ℚ) : List ℚ :=
  xs.map (clipUpper (quantile99 xs))

/-- The clipping loop body for a column that may hold missing cells
(MINIMUM_PAYMENTS): pandas computes the quantile over the non-missing
cells and clip leaves NaN cells alone. -/
def clipColOpt (xs : List (Option ℚ)) : List (Option ℚ) :=
  xs.map (Option.map (clipUpper (quantile99 (xs.filterMap id))))

/-- CREDIT_LIMIT after the fillna step of preprocess. -/
def imputedCL (df : RawTable) : List (Option ℚ) :=
  fillna df.credit_limit (medianOpt df.credit_limit)

/-- MINIMUM_PAYMENTS after the fillna step of preprocess. -/
def imputedMP (df : RawTable) : List (Option ℚ) :=
  fillna df.minimum_payments (medianOpt df.minimum_payments)

/-- Processed table: the raw schema without CUST_ID plus the four derived
columns appended by preprocess.  The two imputed columns and all four
derived ratio columns keep the Option type (the divisions can produce
NaN via 0 / 0), so that the absence of missing cells is a theorem rather
than a typing artifact. -/
structure ProcTable where
  balance : List ℚ
  balance_frequency : List ℚ
  purchases : List ℚ
  oneoff_purchases : List ℚ
  installments_purchases : List ℚ
  cash_advance : List ℚ
  purchases_frequency : List ℚ
  oneoff_purchases_frequency : List ℚ
  purchases_installments_frequency : List ℚ
  cash_advance_frequency : List ℚ
  cash_advance_trx : List ℚ
  purchases_trx : List ℚ
  credit_limit : List (Option ℚ)
  payments : List ℚ
  minimum_payments : List (Option ℚ)
  prc_full_payment : List ℚ
  tenure : List ℚ
  monthly_avg_purchase : List (Option ℚ)
  monthly_avg_cash_advance : List (Option ℚ)
  purchase_to_limit : List (Option ℚ)
  balance_to_limit : List (Option ℚ)

/-- preprocess from preprocess.py.  In source order: drop CUST_ID
(errors equal to ignore), fill CREDIT_LIMIT and MINIMUM_PAYMENTS with
their medians, append the four derived ratio columns, then clip BALANCE,
PURCHASES, CASH_ADVANCE, PAYMENTS and MINIMUM_PAYMENTS at their own 99th
percentile.  The derived columns are computed before the clipping step,
from the unclipped values, exactly as in the source; their divisions use
the pandas semantics divPd, so a 0 / 0 row yields a missing cell and a
missing CREDIT_LIMIT operand propagates missingness. -/
def preprocess (df : RawTable) : ProcTable where
  balance := clipCol df.balance
  balance_frequency := df.balance_frequency
  purchases := clipCol df.purchases
  oneoff_purchases := df.oneoff_purchases
  installments_purchases := df.installments_purchases
  cash_advance := clipCol df.cash_advance
  purchases_frequency := df.purchases_frequency
  oneoff_purchases_frequency := df.oneoff_purchases_frequency
  purchases_installments_frequency := df.purchases_installments_frequency
  cash_advance_frequency := df.cash_advance_frequency
  cash_advance_trx := df.cash_advance_trx
  purchases_trx := df.purchases_trx
  credit_limit := imputedCL df
  payments := clipCol df.payments
  minimum_payments := clipColOpt (imputedMP df)
  prc_full_payment := df.prc_full_payment
  tenure := df.tenure
  monthly_avg_purchase := List.zipWith divPd df.purchases df.tenure
  monthly_avg_cash_advance := List.zipWith divPd df.cash_advance df.tenure
  purchase_to_limit :=
    List.zipWith (fun p c => c.bind (fun cv => divPd p (cv + 1))) df.purchases (imputedCL df)
  balance_to_limit :=
    List.zipWith (fun b c => c.bind (fun cv => divPd b (cv + 1))) df.balance (imputedCL df)

/-- The denominators formed by the four derived-ratio computations of
preprocess, in source order: TENURE for the two monthly averages and the
imputed CREDIT_LIMIT plus one for the two limit ratios (an entirely
missing CREDIT_LIMIT cell makes the division NaN, not a division by
zero, so such cells contribute no denominator). -/
def ratioDenominators (df : RawTable) : List ℚ :=
  df.tenure ++ df.tenure
    ++ (imputedCL df).filterMap (fun o => o.map (fun c => c + 1))
    ++ (imputedCL df).filterMap (fun o => o.map (fun c => c + 1))

/-- The 21 columns of the processed table in pandas column order (the 17
kept numeric columns followed by the 4 appended derived columns), every
column viewed as an Option column so they fit one list. -/
def ProcTable.columns (t : ProcTable) : List (List (Option ℚ)) :=
  [t.balance.map some, t.balance_frequency.map some, t.purchases.map some,
   t.oneoff_purchases.map some, t.installments_purchases.map some,
   t.cash_advance.map some, t.purchases_frequency.map some,
   t.oneoff_purchases_frequency.map some,
   t.purchases_installments_frequency.map some,
   t.cash_advance_frequency.map some, t.cash_advance_trx.map some,
   t.purchases_trx.map some, t.credit_limit, t.payments.map some,
   t.minimum_payments, t.prc_full_payment.map some, t.tenure.map some,
   t.monthly_avg_purchase, t.monthly_avg_cash_advance,
   t.purchase_to_limit, t.balance_to_limit]

/-- Row count of the processed table (len of the DataFrame). -/
def ProcTable.nrows (t : ProcTable) : Nat := t.balance.length

/-- fit_predict of the fitted IsolationForest, as scikit-learn documents
it: a row is labeled -1 (anomaly) exactly when its decision_function
value is negative, else 1 (normal).  The detector itself is abstract; it
enters the claims only through its score list. -/
def labelsOf (scores : List ℚ) : List Int :=
  scores.map (fun s => if s < 0 then -1 else 1)

/-- The line anomaly_flags = (labels == -1).astype(int) of train.py. -/
def anomalyFlags (labels : List Int) : List Nat :=
  labels.map (fun l => if l = -1 then 1 else 0)

/-- Python round(x, 2): round to two decimal places. -/
def round2 (x : ℚ) : ℚ := ((round (x * 100) : ℤ) : ℚ) / 100

/-- The CONTAMINATION constant of train.py. -/
def CONTAMINATION : ℚ := 5 / 100

/-- The metrics dict written by train to reports/metrics.json, restricted
to the fields the claims speak about. -/
structure Metrics where
  model : String
  n_samples : Nat
  n_components_pca : Nat
  contamination : ℚ
  n_anomalies : Nat
  n_normal : Int
  anomaly_percentage : ℚ

/-- The metrics computation of train(): labels from fit_predict, flags,
n_anomalies as the flag sum, n_normal as len(flags) - n_anomalies,
anomaly percentage as n_anomalies / len(flags) * 100 rounded to two
decimals, n_samples as len(df). -/
def trainMetrics (df : ProcTable) (scores : List ℚ) : Metrics :=
  let labels := labelsOf scores
  let flags := anomalyFlags labels
  let nAnom := flags.sum
  let nNorm : Int := (flags.length : Int) - (nAnom : Int)
  let pct : ℚ := (nAnom : ℚ) / (flags.length : ℚ) * 100
  { model := "IsolationForest + PCA"
    n_samples := df.nrows
    n_components_pca := 10
    contamination := CONTAMINATION
    n_anomalies := nAnom
    n_normal := nNorm
    anomaly_percentage := round2 pct }

/-- The choices list of the --version argument in generate_data.py. -/
def version_choices : List Int := [1, 2]

/-- argparse for generate_data.py: absent flag defaults to 1, a present
value must be one of the declared choices or parsing fails. -/
def parse_version : Option Int → Option Int
  | none => some 1
  | some v => if v ∈ version_choices then some v else none

/-- main() of generate_data.py, reduced to the (n_samples, seed) pair it
passes to generate_credit_card_data: version 1 gives (8950, 42) and the
else branch (which argparse restricts to version 2) gives (9500, 99). -/
def main_params (arg : Option Int) : Option (Nat × Nat) :=
  (parse_version arg).map (fun v => if v = 1 then (8950, 42) else (9500, 99))

/-- The version-1 end-to-end pipeline up to the processed table:
generate 8950 rows with seed 42, then preprocess. -/
def pipelineV1 : ProcTable :=
  preprocess (generate_credit_card_data 8950 42)

/-- A concrete two-row raw table used by the witnesses and the
counterexample: PURCHASES, CASH_ADVANCE and BALANCE have row 1 far above
the two-point 99th percentile, so the clipping step changes them. -/
def T2 : RawTable where
  cust_id := some ["C10001", "C10002"]
  balance := [0, 100]
  balance_frequency := [0, 0]
  purchases := [0, 100]
  oneoff_purchases := [0, 0]
  installments_purchases := [0, 0]
  cash_advance := [0, 100]
  purchases_frequency := [0, 0]
  oneoff_purchases_frequency := [0, 0]
  purchases_installments_frequency := [0, 0]
  cash_advance_frequency := [0, 0]
  cash_advance_trx := [0, 0]
  purchases_trx := [0, 0]
  credit_limit := [some 1, none]
  payments := [0, 0]
  minimum_payments := [none, some 2]
  prc_full_payment := [0, 0]
  tenure := [1, 1]

/-- A one-row raw table inside the scope of the original C1 claim
(missing values only in the two nullable columns, neither entirely
missing) on which preprocess writes NaN into a derived column: its only
row has PURCHASES 0 and TENURE 0, so MONTHLY_AVG_PURCHASE is 0 / 0; its
imputed CREDIT_LIMIT is -1, so PURCHASE_TO_LIMIT_RATIO is 0 / 0 as
well. -/
def T0 : RawTable where
  cust_id := some ["C10001"]
  balance := [0]
  balance_frequency := [0]
  purchases := [0]
  oneoff_purchases := [0]
  installments_purchases := [0]
  cash_advance := [0]
  purchases_frequency := [0]
  oneoff_purchases_frequency := [0]
  purchases_installments_frequency := [0]
  cash_advance_frequency := [0]
  cash_advance_trx := [0]
  purchases_trx := [0]
  credit_limit := [some (-1)]
  payments := [0]
  minimum_payments := [some 2]
  prc_full_payment := [0]
  tenure := [0]

/-- Concrete draws with 313 rows for the generator witness: the NaN index
draws are [0] and the full range of 313 distinct indices. -/
def D313 : GenDraws where
  balance := List.replicate 313 0
  balance_frequency := List.replicate 313 0
  purchases := List.replicate 313 0
  oneoff_purchases := List.replicate 313 0
  installments_purchases := List.replicate 313 0
  cash_advance := List.replicate 313 0
  purchases_frequency := List.replicate 313 0
  oneoff_purchases_frequency := List.replicate 313 0
  purchases_installments_frequency := List.replicate 313 0
  cash_advance_frequency := List.replicate 313 0
  cash_advance_trx := List.replicate 313 0
  purchases_trx := List.replicate 313 0
  credit_limit := List.replicate 313 0
  payments := List.replicate 313 0
  minimum_payments := List.replicate 313 0
  prc_full_payment := List.replicate 313 0
  tenure := List.replicate 313 6
  nanIdxCredit := [0]
  nanIdxMin := List.range 313

/-- The contiguous window of row indices k, k+1, ..., k+len-1 (used to
count the cells touched by the NaN injection). -/
def winIdx : Nat → Nat → List Nat
  | _, 0 => []
  | k, len + 1 => k :: winIdx (k + 1) len

/-- No missing cells in the processed table: every cell of the six
Option-typed columns (the two imputed ones and the four derived ratio
ones, whose divisions can produce NaN) is a proper value; the remaining
15 columns are plain rationals, matching the claim's restriction of
input missingness to CREDIT_LIMIT and MINIMUM_PAYMENTS. -/
def NoMissing (t : ProcTable) : Prop :=
  (∀ o ∈ t.credit_limit, o.isSome = true) ∧
  (∀ o ∈ t.minimum_payments, o.isSome = true) ∧
  (∀ o ∈ t.monthly_avg_purchase, o.isSome = true) ∧
  (∀ o ∈ t.monthly_avg_cash_advance, o.isSome = true) ∧
  (∀ o ∈ t.purchase_to_limit, o.isSome = true) ∧
  (∀ o ∈ t.balance_to_limit, o.isSome = true)

/-- The clipping contract of one fully numeric column at row i: the output
cell never exceeds the column's 99th percentile of the input, is never
above the input cell (no raising), and equals the input cell whenever
that cell was already at or below the threshold. -/
def ClipColSpecAt (src out : List ℚ) (i : Nat) : Prop :=
  out.getD i 0 ≤ quantile99 src ∧
  out.getD i 0 ≤ src.getD i 0 ∧
  (src.getD i 0 ≤ quantile99 src → out.getD i 0 = src.getD i 0)

/-- The clipping contract of preprocess at row i for all five clipped
columns; MINIMUM_PAYMENTS is stated against the imputed column and the
percentile over its non-missing cells, which is what pandas computes. -/
def ClipSpecAt (df : RawTable) (i : Nat) : Prop :=
  ClipColSpecAt df.balance (preprocess df).balance i ∧
  ClipColSpecAt df.purchases (preprocess df).purchases i ∧
  ClipColSpecAt df.cash_advance (preprocess df).cash_advance i ∧
  ClipColSpecAt df.payments (preprocess df).payments i ∧
  ∀ v w, (imputedMP df).getD i none = some v →
    (preprocess df).minimum_payments.getD i none = some w →
      w ≤ quantile99 ((imputedMP df).filterMap id) ∧ w ≤ v ∧
        (v ≤ quantile99 ((imputedMP df).filterMap id) → w = v)

/-- The derived-column contract of preprocess at row i: each of the four
appended ratio columns equals the pandas quotient (divPd) of the
corresponding input (pre-clipping) columns; the two limit ratios divide
by the imputed CREDIT_LIMIT plus one. -/
def DerivedSpecAt (df : RawTable) (i : Nat) : Prop :=
  (preprocess df).monthly_avg_purchase.getD i none
      = divPd (df.purchases.getD i 0) (df.tenure.getD i 0) ∧
  (preprocess df).monthly_avg_cash_advance.getD i none
      = divPd (df.cash_advance.getD i 0) (df.tenure.getD i 0) ∧
  ∀ v, (preprocess df).credit_limit.getD i none = some v →
    (preprocess df).purchase_to_limit.getD i none
        = divPd (df.purchases.getD i 0) (v + 1) ∧
    (preprocess df).balance_to_limit.getD i none
        = divPd (df.balance.getD i 0) (v + 1)

/-- The anomaly-accounting contract of the metrics record: n_anomalies is
the number of rows with negative score, equivalently the number of rows
fit_predict labels -1, and the reported percentage is within one half of
the last reported decimal (0.005) of n_anomalies / n_samples * 100. -/
def AnomalySpec (df : ProcTable) (scores : List ℚ) : Prop :=
  (trainMetrics df scores).n_anomalies = scores.countP (fun s => decide (s < 0)) ∧
  (trainMetrics df scores).n_anomalies = (labelsOf scores).countP (fun l => decide (l = -1)) ∧
  |(trainMetrics df scores).anomaly_percentage
      - ((trainMetrics df scores).n_anomalies : ℚ)
        / ((trainMetrics df scores).n_samples : ℚ) * 100| ≤ 1 / 200

theorem length_setNoneAux (idxs : List Nat) :
    ∀ (k : Nat) (xs : List (Option ℚ)), (setNoneAux idxs k xs).length = xs.length := by
  intro k xs
  induction xs generalizing k with
  | nil => rfl
  | cons x t ih => simp [setNoneAux, ih]

theorem getD_map_lt {α β : Type} (f : α → β) :
    ∀ (xs : List α) (i : Nat) (d : α) (e : β), i < xs.length →
      (xs.map f).getD i e = f (xs.getD i d) := by
  intro xs
  induction xs with
  | nil => intro i d e h; simp at h
  | cons x t ih =>
    intro i d e h
    cases i with
    | zero => rfl
    | succ j =>
      simp only [List.map_cons, List.getD_cons_succ]
      exact ih j d e (by simpa using h)

theorem getD_map_df {α β : Type} (f : α → β) :
    ∀ (xs : List α) (i : Nat) (d : α), (xs.map f).getD i (f d) = f (xs.getD i d) := by
  intro xs
  induction xs with
  | nil => intro i d; rfl
  | cons x t ih =>
    intro i d
    cases i with
    | zero => rfl
    | succ j => exact ih j d

theorem getD_zipWith {α β γ : Type} (f : α → β → γ) :
    ∀ (as : List α) (bs : List β) (i : Nat) (da : α) (db : β) (dc : γ),
      i < as.length → i < bs.length →
      (List.zipWith f as bs).getD i dc = f (as.getD i da) (bs.getD i db) := by
  intro as
  induction as with
  | nil => intro bs i da db dc ha hb; simp at ha
  | cons a t ih =>
    intro bs i da db dc ha hb
    cases bs with
    | nil => simp at hb
    | cons b u =>
      cases i with
      | zero => rfl
      | succ j =>
        simp only [List.zipWith_cons_cons, List.getD_cons_succ]
        exact ih u j da db dc (by simpa using ha) (by simpa using hb)

theorem exists_of_mem_zipWith {α β γ : Type} {f : α → β → γ} :
    ∀ {as : List α} {bs : List β} {x : γ}, x ∈ List.zipWith f as bs →
      ∃ a ∈ as, ∃ b ∈ bs, x = f a b := by
  intro as
  induction as with
  | nil => intro bs x h; simp [List.zipWith] at h
  | cons a t ih =>
    intro bs x h
    cases bs with
    | nil => simp [List.zipWith] at h
    | cons b u =>
      rw [List.zipWith_cons_cons] at h
      rcases List.mem_cons.mp h with h | h
      · exact ⟨a, List.mem_cons_self a t, b, List.mem_cons_self b u, h⟩
      · rcases ih h with ⟨a1, ha1, b1, hb1, rfl⟩
        exact ⟨a1, List.mem_cons_of_mem _ ha1, b1, List.mem_cons_of_mem _ hb1, rfl⟩

theorem fillna_some_isSome (xs : List (Option ℚ)) (m : ℚ) :
    ∀ o ∈ fillna xs (some m), o.isSome = true := by
  intro o ho
  rcases List.mem_map.mp ho with ⟨x, _, rfl⟩
  cases x <;> rfl

theorem medianOpt_of_ne (xs : List (Option ℚ)) (h : xs.filterMap id ≠ []) :
    medianOpt xs = some (median (xs.filterMap id)) := by
  simp only [medianOpt]
  rw [if_neg h]

theorem countP_disj {α : Type} (p q : α → Prop) [DecidablePred p] [DecidablePred q]
    (hdisj : ∀ a, ¬(p a ∧ q a)) :
    ∀ l : List α, l.countP (fun a => decide (p a ∨ q a))
      = l.countP (fun a => decide (p a)) + l.countP (fun a => decide (q a)) := by
  intro l
  induction l with
  | nil => rfl
  | cons a t ih =>
    simp only [List.countP_cons, ih]
    by_cases hp : p a
    · have hq : ¬q a := fun hq => hdisj a ⟨hp, hq⟩
      simp [hp, hq]
      omega
    · by_cases hq : q a
      · simp [hp, hq]
        omega
      · simp [hp, hq]

theorem countP_eq_winIdx (a : Nat) :
    ∀ (len k : Nat), (winIdx k len).countP (fun j => decide (j = a))
      = if k ≤ a ∧ a < k + len then 1 else 0 := by
  intro len
  induction len with
  | zero =>
    intro k
    simp only [winIdx, List.countP_nil]
    split_ifs <;> omega
  | succ m ih =>
    intro k
    simp only [winIdx, List.countP_cons, ih (k + 1), decide_eq_true_eq]
    split_ifs <;> omega

theorem countP_winIdx_mem :
    ∀ (idxs : List Nat), idxs.Nodup → ∀ (k len : Nat),
      (∀ j ∈ idxs, k ≤ j ∧ j < k + len) →
      (winIdx k len).countP (fun j => decide (j ∈ idxs)) = idxs.length := by
  intro idxs
  induction idxs with
  | nil =>
    intro _ k len _
    simp
  | cons a t ih =>
    intro hnd k len hb
    have hat : a ∉ t := (List.nodup_cons.mp hnd).1
    have hndt : t.Nodup := (List.nodup_cons.mp hnd).2
    have h1 : (winIdx k len).countP (fun j => decide (j ∈ a :: t))
        = (winIdx k len).countP (fun j => decide (j = a ∨ j ∈ t)) := by
      apply List.countP_congr
      intro x _
      simp [List.mem_cons]
    have hd : ∀ j, ¬(j = a ∧ j ∈ t) := by
      rintro j ⟨rfl, hj⟩
      exact hat hj
    rw [h1, countP_disj _ _ hd, countP_eq_winIdx,
      if_pos (hb a (List.mem_cons_self a t)),
      ih hndt k len (fun j hj => hb j (List.mem_cons_of_mem a hj))]
    simp only [List.length_cons]
    omega

theorem countP_setNoneAux (idxs : List Nat) :
    ∀ (xs : List (Option ℚ)) (k : Nat), (∀ x ∈ xs, x.isSome = true) →
      (setNoneAux idxs k xs).countP (fun o => o.isNone)
        = (winIdx k xs.length).countP (fun j => decide (j ∈ idxs)) := by
  intro xs
  induction xs with
  | nil => intro k _; rfl
  | cons x t ih =>
    intro k hx
    have hxs : x.isSome = true := hx x (List.mem_cons_self x t)
    simp only [setNoneAux, List.length_cons, winIdx, List.countP_cons]
    rw [ih (k + 1) (fun y hy => hx y (List.mem_cons_of_mem _ hy))]
    by_cases hk : k ∈ idxs
    · simp [hk]
    · have hxn : x.isNone = false := by
        cases x
        · simp at hxs
        · rfl
      simp [hk, hxn]

theorem length_anomalyFlags (scores : List ℚ) :
    (anomalyFlags (labelsOf scores)).length = scores.length := by
  simp [anomalyFlags, labelsOf]

theorem sum_anomalyFlags (scores : List ℚ) :
    (anomalyFlags (labelsOf scores)).sum = scores.countP (fun s => decide (s < 0)) := by
  unfold anomalyFlags labelsOf
  rw [List.map_map]
  induction scores with
  | nil => rfl
  | cons s t ih =>
    rw [List.map_cons, List.sum_cons, List.countP_cons, ih]
    by_cases h : s < 0
    · simp [h, Nat.add_comm]
    · simp [h]

theorem countP_labelsOf (scores : List ℚ) :
    (labelsOf scores).countP (fun l => decide (l = -1))
      = scores.countP (fun s => decide (s < 0)) := by
  induction scores with
  | nil => rfl
  | cons s t ih =>
    simp only [labelsOf, List.map_cons, List.countP_cons] at *
    by_cases h : s < 0
    · simp [h, ih]
    · simp [h, ih]

theorem abs_round2_sub (x : ℚ) : |round2 x - x| ≤ 1 / 200 := by
  have h := abs_sub_round (x * 100)
  have h2 : round2 x - x = (((round (x * 100) : ℤ) : ℚ) - x * 100) / 100 := by
    unfold round2
    ring
  have h3 : |((round (x * 100) : ℤ) : ℚ) - x * 100| ≤ 1 / 2 := by
    rw [abs_sub_comm] at h
    exact h
  rw [h2, abs_div, abs_of_pos (by norm_num : (0 : ℚ) < 100)]
  linarith

/-- C1, counterexample to the claim as stated: T0 is inside the claim's
scope (missing cells only in CREDIT_LIMIT and MINIMUM_PAYMENTS, neither
entirely missing), yet the table preprocess returns for it has a missing
cell: its only row divides PURCHASES 0 by TENURE 0, so pandas writes NaN
into MONTHLY_AVG_PURCHASE. -/
theorem claim_C1_counterexample :
    T0.credit_limit.filterMap id ≠ [] ∧ T0.minimum_payments.filterMap id ≠ [] ∧
    ¬NoMissing (preprocess T0) := by
  refine ⟨by decide, by decide, fun h => ?_⟩
  have hmem : none ∈ (preprocess T0).monthly_avg_purchase := by decide
  have := h.2.2.1 none hmem
  simp at this

/-- C1 (amended): for every input table in the generator's schema whose
missing values occur only in CREDIT_LIMIT and MINIMUM_PAYMENTS, whose
two nullable columns are not entirely missing, and in which every TENURE
value is nonzero and every imputed CREDIT_LIMIT value is non-negative
(both guaranteed by the generator, which draws TENURE from 6..12 and
CREDIT_LIMIT from positive tiers), the table returned by preprocess has
no missing cell in any column, and preprocess ignores the CUST_ID column
entirely, so it succeeds (with the same result) when the input has none.
Without the added hypotheses the 0 / 0 divisions of the derived ratio
columns write NaN, refuting the original claim (see the
counterexample). -/
theorem claim_C1 (df : RawTable)
    (hcl : df.credit_limit.filterMap id ≠ [])
    (hmp : df.minimum_payments.filterMap id ≠ [])
    (ht : ∀ t ∈ df.tenure, t ≠ 0)
    (hnn : ∀ o ∈ imputedCL df, 0 ≤ o.getD 0) :
    NoMissing (preprocess df) ∧ preprocess { df with cust_id := none } = preprocess df := by
  have hclS : ∀ o ∈ imputedCL df, o.isSome = true := by
    intro o ho
    have h2 : imputedCL df
        = fillna df.credit_limit (some (median (df.credit_limit.filterMap id))) := by
      rw [imputedCL, medianOpt_of_ne _ hcl]
    rw [h2] at ho
    exact fillna_some_isSome _ _ o ho
  have hlimS : ∀ (p : ℚ), ∀ c ∈ imputedCL df,
      (c.bind (fun cv => divPd p (cv + 1))).isSome = true := by
    intro p c hc
    have hcs : c.isSome = true := hclS c hc
    cases c with
    | none => simp at hcs
    | some cv =>
      have h0 : (0 : ℚ) ≤ cv := by simpa using hnn (some cv) hc
      have hne : cv + 1 ≠ 0 := by
        intro hz
        linarith
      show (divPd p (cv + 1)).isSome = true
      rw [divPd, if_neg (fun hcond => hne hcond.1)]
      rfl
  constructor
  · refine ⟨?_, ?_, ?_, ?_, ?_, ?_⟩
    · intro o ho
      exact hclS o ho
    · intro o ho
      have h1 : (preprocess df).minimum_payments = clipColOpt (imputedMP df) := rfl
      rw [h1] at ho
      rcases List.mem_map.mp ho with ⟨x, hx, rfl⟩
      have hxs : x.isSome = true := by
        have h2 : imputedMP df
            = fillna df.minimum_payments (some (median (df.minimum_payments.filterMap id))) := by
          rw [imputedMP, medianOpt_of_ne _ hmp]
        rw [h2] at hx
        exact fillna_some_isSome _ _ x hx
      cases x
      · simp at hxs
      · rfl
    · intro o ho
      have h1 : (preprocess df).monthly_avg_purchase
          = List.zipWith divPd df.purchases df.tenure := rfl
      rw [h1] at ho
      rcases exists_of_mem_zipWith ho with ⟨p, _, t, htm, rfl⟩
      rw [divPd, if_neg (fun hcond => ht t htm hcond.1)]
      rfl
    · intro o ho
      have h1 : (preprocess df).monthly_avg_cash_advance
          = List.zipWith divPd df.cash_advance df.tenure := rfl
      rw [h1] at ho
      rcases exists_of_mem_zipWith ho with ⟨p, _, t, htm, rfl⟩
      rw [divPd, if_neg (fun hcond => ht t htm hcond.1)]
      rfl
    · intro o ho
      have h1 : (preprocess df).purchase_to_limit
          = List.zipWith (fun p c => c.bind (fun cv => divPd p (cv + 1)))
              df.purchases (imputedCL df) := rfl
      rw [h1] at ho
      rcases exists_of_mem_zipWith ho with ⟨p, _, c, hc, rfl⟩
      exact hlimS p c hc
    · intro o ho
      have h1 : (preprocess df).balance_to_limit
          = List.zipWith (fun b c => c.bind (fun cv => divPd b (cv + 1)))
              df.balance (imputedCL df) := rfl
      rw [h1] at ho
      rcases exists_of_mem_zipWith ho with ⟨b, _, c, hc, rfl⟩
      exact hlimS b c hc
  · rfl

/-- Witness for the amended C1 at the concrete table T2. -/
theorem claim_C1_witness :
    NoMissing (preprocess T2) ∧ preprocess { T2 with cust_id := none } = preprocess T2 :=
  claim_C1 T2 (by decide) (by decide) (by decide) (by decide)

/-- C9: under the code's operating hypotheses (every imputed CREDIT_LIMIT
value non-negative, every TENURE value nonzero) none of the denominators
formed by the four derived-ratio computations of preprocess is zero: the
plus one guard keeps the limit denominators at least one even when the
raw credit limit is zero. -/
theorem claim_C9 (df : RawTable)
    (hcl : ∀ o ∈ imputedCL df, 0 ≤ o.getD 0)
    (ht : ∀ t ∈ df.tenure, t ≠ 0) :
    ∀ d ∈ ratioDenominators df, d ≠ 0 := by
  intro d hd
  have hlim : d ∈ (imputedCL df).filterMap (fun o => o.map (fun c => c + 1)) → d ≠ 0 := by
    intro hd2
    rcases List.mem_filterMap.mp hd2 with ⟨o, ho, hmap⟩
    cases o with
    | none => simp at hmap
    | some c =>
      have h0 : (0 : ℚ) ≤ c := by simpa using hcl (some c) ho
      have hdc : c + 1 = d := by simpa using hmap
      rw [← hdc]
      intro hz
      linarith
  simp only [ratioDenominators, List.mem_append] at hd
  rcases hd with ((hd | hd) | hd) | hd
  · exact ht d hd
  · exact ht d hd
  · exact hlim hd
  · exact hlim hd

/-- Witness for C9: the first TENURE denominator of the concrete table T2
is nonzero. -/
theorem claim_C9_witness : (1 : ℚ) ≠ 0 :=
  claim_C9 T2 (by decide) (by decide) 1 (by simp [ratioDenominators, T2])

/-- C2 (amended): the four derived columns of the table written by
preprocess equal the elementwise ratios of the pre-clipping values: raw
PURCHASES over TENURE, raw CASH_ADVANCE over TENURE, and raw PURCHASES
resp. BALANCE over the imputed CREDIT_LIMIT plus one.  The original
claim, which compares against the PURCHASES, CASH_ADVANCE and BALANCE
columns of the written table itself, fails whenever the clipping step
lowered the row's value (see the counterexample). -/
theorem claim_C2 (df : RawTable) (i : Nat)
    (hp : i < df.purchases.length) (htl : i < df.tenure.length)
    (hca : i < df.cash_advance.length) (hb : i < df.balance.length)
    (hcl : i < df.credit_limit.length) :
    DerivedSpecAt df i := by
  have hcl2 : i < (imputedCL df).length := by
    simpa [imputedCL, fillna] using hcl
  refine ⟨?_, ?_, ?_⟩
  · exact getD_zipWith divPd df.purchases df.tenure i 0 0 none hp htl
  · exact getD_zipWith divPd df.cash_advance df.tenure i 0 0 none hca htl
  · intro v hv
    have hv2 : (imputedCL df).getD i none = some v := hv
    constructor
    · have h1 := getD_zipWith (fun p c => Option.bind c (fun cv => divPd p (cv + 1)))
        df.purchases (imputedCL df) i 0 none none hp hcl2
      show (List.zipWith (fun p c => c.bind (fun cv => divPd p (cv + 1)))
          df.purchases (imputedCL df)).getD i none = _
      rw [h1, hv2]
      rfl
    · have h1 := getD_zipWith (fun b c => Option.bind c (fun cv => divPd b (cv + 1)))
        df.balance (imputedCL df) i 0 none none hb hcl2
      show (List.zipWith (fun b c => c.bind (fun cv => divPd b (cv + 1)))
          df.balance (imputedCL df)).getD i none = _
      rw [h1, hv2]
      rfl

/-- Witness for the amended C2 at row 0 of the concrete table T2. -/
theorem claim_C2_witness : DerivedSpecAt T2 0 :=
  claim_C2 T2 0 (by decide) (by decide) (by decide) (by decide) (by decide)

/-- Evaluation helper: the two-point column sorts as is. -/
theorem sortQ_pair : sortQ [0, 100] = [(0 : ℚ), 100] := by
  norm_num [sortQ, insertSorted]

/-- Evaluation helper: the linear-interpolation 99th percentile of the
two-point column. -/
theorem quantile99_pair : quantile99 [0, 100] = 99 := by
  rw [quantile99, sortQ_pair]
  norm_num

/-- C2, counterexample to the claim as stated: in the table written by
preprocess for T2, row 1 has MONTHLY_AVG_PURCHASE equal to 100 (the raw
PURCHASES of 100 divided by TENURE 1) while the written PURCHASES cell
was clipped down to the 99th percentile 99, so the written table does
not satisfy MONTHLY_AVG_PURCHASE equal to PURCHASES divided by TENURE
at that row (the gap is 1, far beyond rounding tolerance). -/
theorem claim_C2_counterexample :
    (preprocess T2).monthly_avg_purchase.getD 1 none
      ≠ some ((preprocess T2).purchases.getD 1 0 / (preprocess T2).tenure.getD 1 0) := by
  have hm : (preprocess T2).monthly_avg_purchase.getD 1 none = some 100 := by
    show (List.zipWith divPd T2.purchases T2.tenure).getD 1 none = some 100
    norm_num [T2, divPd]
  have hp : (preprocess T2).purchases.getD 1 0 = 99 := by
    show (clipCol T2.purchases).getD 1 0 = 99
    norm_num [T2, clipCol, clipUpper, quantile99_pair, min_def]
  have ht2 : (preprocess T2).tenure.getD 1 0 = 1 := by
    show T2.tenure.getD 1 0 = 1
    norm_num [T2]
  rw [hm, hp, ht2]
  simp only [ne_eq, Option.some.injEq]
  norm_num

/-- C3: at every in-range row the five clipped columns of the processed
table never exceed their column's 99th-percentile threshold (computed on
the already-imputed table), are never raised, and are unchanged whenever
the pre-clipping value was at or below the threshold. -/
theorem claim_C3 (df : RawTable) (i : Nat)
    (hb : i < df.balance.length) (hp : i < df.purchases.length)
    (hca : i < df.cash_advance.length) (hpay : i < df.payments.length)
    (_hmp : i < df.minimum_payments.length) :
    ClipSpecAt df i := by
  have key : ∀ xs : List ℚ, i < xs.length → ClipColSpecAt xs (clipCol xs) i := by
    intro xs hxs
    have h1 : (clipCol xs).getD i 0 = min (xs.getD i 0) (quantile99 xs) :=
      getD_map_lt (clipUpper (quantile99 xs)) xs i 0 0 hxs
    exact ⟨by rw [h1]; exact min_le_right _ _,
      by rw [h1]; exact min_le_left _ _,
      fun hle => by rw [h1]; exact min_eq_left hle⟩
  refine ⟨key df.balance hb, key df.purchases hp, key df.cash_advance hca,
    key df.payments hpay, ?_⟩
  intro v w hv hw
  have h1 : (preprocess df).minimum_payments.getD i none
      = Option.map (clipUpper (quantile99 ((imputedMP df).filterMap id)))
          ((imputedMP df).getD i none) :=
    getD_map_df (Option.map (clipUpper (quantile99 ((imputedMP df).filterMap id))))
      (imputedMP df) i none
  rw [h1, hv] at hw
  have hw2 : w = min v (quantile99 ((imputedMP df).filterMap id)) :=
    (Option.some.inj hw).symm
  refine ⟨?_, ?_, ?_⟩
  · rw [hw2]
    exact min_le_right _ _
  · rw [hw2]
    exact min_le_left _ _
  · intro hle
    rw [hw2]
    exact min_eq_left hle

/-- Witness for C3 at row 0 of the concrete table T2. -/
theorem claim_C3_witness : ClipSpecAt T2 0 :=
  claim_C3 T2 0 (by decide) (by decide) (by decide) (by decide) (by decide)

/-- C4: whenever the NaN index draws have the shape numpy guarantees for
choice without replacement (distinct in-range indices, one for
CREDIT_LIMIT and 313 for MINIMUM_PAYMENTS, which requires the row count
to be at least 313) and the drawn columns have the full row count, the
generated table holds exactly 1 missing cell in CREDIT_LIMIT and exactly
313 in MINIMUM_PAYMENTS; the counts are fixed absolute numbers, not a
rate, and every other column is missing-free by construction. -/
theorem claim_C4 (n : Nat) (d : GenDraws)
    (hcl : d.credit_limit.length = n) (hmp : d.minimum_payments.length = n)
    (hnd1 : d.nanIdxCredit.Nodup) (hlen1 : d.nanIdxCredit.length = 1)
    (hb1 : ∀ j ∈ d.nanIdxCredit, j < n)
    (hnd2 : d.nanIdxMin.Nodup) (hlen2 : d.nanIdxMin.length = 313)
    (hb2 : ∀ j ∈ d.nanIdxMin, j < n) :
    (generateFromDraws n d).credit_limit.countP (fun o => o.isNone) = 1 ∧
    (generateFromDraws n d).minimum_payments.countP (fun o => o.isNone) = 313 := by
  constructor
  · have hsome : ∀ x ∈ d.credit_limit.map some, x.isSome = true := by
      intro x hx
      rcases List.mem_map.mp hx with ⟨a, _, rfl⟩
      rfl
    have h1 : (generateFromDraws n d).credit_limit
        = setNoneAux d.nanIdxCredit 0 (d.credit_limit.map some) := rfl
    rw [h1, countP_setNoneAux d.nanIdxCredit (d.credit_limit.map some) 0 hsome,
      List.length_map, hcl,
      countP_winIdx_mem d.nanIdxCredit hnd1 0 n
        (fun j hj => ⟨Nat.zero_le j, by rw [Nat.zero_add]; exact hb1 j hj⟩),
      hlen1]
  · have hsome : ∀ x ∈ d.minimum_payments.map some, x.isSome = true := by
      intro x hx
      rcases List.mem_map.mp hx with ⟨a, _, rfl⟩
      rfl
    have h1 : (generateFromDraws n d).minimum_payments
        = setNoneAux d.nanIdxMin 0 (d.minimum_payments.map some) := rfl
    rw [h1, countP_setNoneAux d.nanIdxMin (d.minimum_payments.map some) 0 hsome,
      List.length_map, hmp,
      countP_winIdx_mem d.nanIdxMin hnd2 0 n
        (fun j hj => ⟨Nat.zero_le j, by rw [Nat.zero_add]; exact hb2 j hj⟩),
      hlen2]

/-- Witness for C4 at 313 rows with explicit distinct index draws. -/
theorem claim_C4_witness :
    (generateFromDraws 313 D313).credit_limit.countP (fun o => o.isNone) = 1 ∧
    (generateFromDraws 313 D313).minimum_payments.countP (fun o => o.isNone) = 313 :=
  claim_C4 313 D313 (by simp [D313]) (by simp [D313]) (by decide) rfl
    (by decide) (by simp [D313, List.nodup_range]) (by simp [D313])
    (fun j hj => List.mem_range.mp (by simpa [D313] using hj))

/-- C5: the generator is deterministic.  The numpy stream is embedded as
a pure function of the seed (np.random.seed fixes all later draws), so
two runs of generate_credit_card_data on the same row count and seed
produce identical tables. -/
theorem claim_C5 (n1 n2 seed1 seed2 : Nat) (hn : n1 = n2) (hs : seed1 = seed2) :
    generate_credit_card_data n1 seed1 = generate_credit_card_data n2 seed2 := by
  rw [hn, hs]

/-- Witness for C5 at the version-1 parameters. -/
theorem claim_C5_witness :
    generate_credit_card_data 8950 42 = generate_credit_card_data 8950 42 :=
  claim_C5 8950 8950 42 42 rfl rfl

/-- C6: in the metrics record, n_anomalies is the number of training rows
whose decision-function score is below zero, equivalently the number of
rows fit_predict labels -1, and the reported anomaly percentage is
within rounding (half of the second decimal place) of
n_anomalies / n_samples * 100. -/
theorem claim_C6 (df : ProcTable) (scores : List ℚ) (h : scores.length = df.nrows) :
    AnomalySpec df scores := by
  refine ⟨sum_anomalyFlags scores, ?_, ?_⟩
  · show (anomalyFlags (labelsOf scores)).sum = _
    rw [sum_anomalyFlags, countP_labelsOf]
  · show |round2 (((anomalyFlags (labelsOf scores)).sum : ℚ)
        / ((anomalyFlags (labelsOf scores)).length : ℚ) * 100)
      - ((anomalyFlags (labelsOf scores)).sum : ℚ) / (df.nrows : ℚ) * 100| ≤ 1 / 200
    rw [length_anomalyFlags, h]
    exact abs_round2_sub _

/-- Witness for C6 on a two-row processed table with one negative and one
positive score. -/
theorem claim_C6_witness : AnomalySpec (preprocess T2) [-1, 1] :=
  claim_C6 (preprocess T2) [-1, 1] rfl

/-- C10: the two counts reported in the metrics record always partition
the sample count: n_normal + n_anomalies equals n_samples (each row is
labeled exactly one of anomalous or normal). -/
theorem claim_C10 (df : ProcTable) (scores : List ℚ) (h : scores.length = df.nrows) :
    (trainMetrics df scores).n_normal + ((trainMetrics df scores).n_anomalies : Int)
      = ((trainMetrics df scores).n_samples : Int) := by
  show ((anomalyFlags (labelsOf scores)).length : Int)
      - ((anomalyFlags (labelsOf scores)).sum : Int)
      + ((anomalyFlags (labelsOf scores)).sum : Int) = (df.nrows : Int)
  rw [length_anomalyFlags, h]
  omega

/-- Witness for C10 on the same two-row input as C6. -/
theorem claim_C10_witness :
    (trainMetrics (preprocess T2) [-1, 1]).n_normal
      + ((trainMetrics (preprocess T2) [-1, 1]).n_anomalies : Int)
      = ((trainMetrics (preprocess T2) [-1, 1]).n_samples : Int) :=
  claim_C10 (preprocess T2) [-1, 1] rfl

/-- Column lengths of the end-to-end pipeline: preprocessing the table
generated with n rows yields 21 columns that all still have n rows. -/
theorem pipeline_lengths (n seed : Nat) :
    ∀ c ∈ (preprocess (generate_credit_card_data n seed)).columns, c.length = n := by
  intro c hc
  simp only [ProcTable.columns, List.mem_cons, List.not_mem_nil, or_false] at hc
  rcases hc with rfl | rfl | rfl | rfl | rfl | rfl | rfl | rfl | rfl | rfl | rfl |
      rfl | rfl | rfl | rfl | rfl | rfl | rfl | rfl | rfl | rfl <;>
    simp [preprocess, clipCol, clipColOpt, imputedCL, imputedMP, fillna,
      generate_credit_card_data, generateFromDraws, seedDraws, drawCol,
      length_setNoneAux, List.length_zipWith, min_self]

/-- C7: the version-1 end-to-end pipeline (generate 8950 rows with seed
42, then preprocess, then train) yields a processed table of shape
(8950, 21) - the 17 kept numeric columns plus 4 derived - and a metrics
record with n_samples 8950 and contamination 0.05, whatever scores the
fitted detector produces. -/
theorem claim_C7 :
    pipelineV1.columns.length = 21 ∧
    (∀ c ∈ pipelineV1.columns, c.length = 8950) ∧
    ∀ scores : List ℚ,
      (trainMetrics pipelineV1 scores).n_samples = 8950 ∧
      (trainMetrics pipelineV1 scores).contamination = 5 / 100 := by
  refine ⟨rfl, pipeline_lengths 8950 42, ?_⟩
  intro scores
  have hmem : pipelineV1.balance.map some ∈ pipelineV1.columns :=
    List.mem_cons_self _ _
  have hlen := pipeline_lengths 8950 42 _ hmem
  rw [List.length_map] at hlen
  constructor
  · show (trainMetrics pipelineV1 scores).n_samples = 8950
    simp only [trainMetrics, ProcTable.nrows]
    exact hlen
  · rfl

/-- Witness for C7: the first column is 8950 long and the metrics fields
are as claimed for an arbitrary concrete score list. -/
theorem claim_C7_witness :
    (pipelineV1.balance.map some).length = 8950 ∧
    (trainMetrics pipelineV1 []).n_samples = 8950 ∧
    (trainMetrics pipelineV1 []).contamination = 5 / 100 :=
  ⟨claim_C7.2.1 (pipelineV1.balance.map some) (List.mem_cons_self _ _),
    (claim_C7.2.2 []).1, (claim_C7.2.2 []).2⟩

/-- C8: the generator CLI exposes a single version flag restricted to the
choices 1 and 2 with default 1, mapped to the generation parameters
(8950 rows, seed 42) for version 1 and (9500 rows, seed 99) for version
2; any other version value is rejected by argument parsing. -/
theorem claim_C8 :
    main_params none = some (8950, 42) ∧
    main_params (some 1) = some (8950, 42) ∧
    main_params (some 2) = some (9500, 99) ∧
    ∀ v : Int, v ≠ 1 → v ≠ 2 → parse_version (some v) = none := by
  refine ⟨by decide, by decide, by decide, ?_⟩
  intro v h1 h2
  simp [parse_version, version_choices, h1, h2]

/-- Witness for C8: version 3 is rejected. -/
theorem claim_C8_witness : parse_version (some 3) = none :=
  claim_C8.2.2.2 3 (by decide) (by decide)

end CC
